import Mathlib

/-!
Verification of the metrics engine of the 2510_MCdata market-data project
(`src/calculator/metrics_engine.py` with constants from `config/settings.py`).

Numbers are modelled as exact rationals; Python's `round(x, n)` (banker's
rounding, round-half-to-even) is modelled by `pyRound`/`round2`/`round1`.
Order records are modelled as a structure with the validated field shape the
engine consumes; `order_date` is an abstract timestamp in minutes
(`none` = missing or unparseable, which the frequency scorer skips).
Korean category strings are kept exactly as in the source:
"저평가" = Undervalued, "고평가" = Overvalued, "유동성↑" = HighLiquidity,
"유동성↓" = LowLiquidity, "주의" = Caution, "보통" = Normal.
-/

namespace MCdata

/-- Python's `round` to an integer: round half to even. -/
def pyRound (x : ℚ) : ℤ :=
  let f := ⌊x⌋
  let r := x - f
  if r < 1/2 then f
  else if 1/2 < r then f + 1
  else if f % 2 = 0 then f else f + 1

/-- Python's `round(x, 2)`. -/
def round2 (x : ℚ) : ℚ := (pyRound (x * 100) : ℚ) / 100

/-- Python's `round(x, 1)`. -/
def round1 (x : ℚ) : ℚ := (pyRound (x * 10) : ℚ) / 10

-- Constants from `config/settings.py`.

def PREMIUM_THRESHOLD_HIGH : ℚ := 10.0
def PREMIUM_THRESHOLD_LOW : ℚ := -10.0
def LIQUIDITY_HIGH_SCORE : ℚ := 80
def LIQUIDITY_LOW_SCORE : ℚ := 30
def REFERENCE_PRICE : ℚ := 10000

/-- An order record, in the externally validated shape the engine consumes
(§3 of the spec).  `order_type` is "구매" (Buy) or "판매" (Sell);
`order_status` is "대기" (Waiting), "완료" (Completed), etc. -/
structure Order where
  song_name : String
  order_type : String
  order_status : String
  order_price : ℚ
  recent_price : ℚ
  order_royalty_rate : ℚ
  order_date : Option ℤ
deriving DecidableEq, Repr

/-- The enriched record produced by `calculate_order_metrics`: a (shallow)
copy of the input order plus the five derived fields written by
`result.update`. -/
structure EnrichedOrder where
  base : Order
  spread_rate : Option ℚ
  expected_yield : Option ℚ
  liquidity_score : ℚ
  fair_value : ℚ
  signal : String
deriving DecidableEq, Repr

/-- `MetricsEngine.calculate_spread_rate`:
`(order_price - recent_price) / recent_price * 100`, rounded to 2 decimals,
`None` when `recent_price == 0`. -/
def calculate_spread_rate (order_price recent_price : ℚ) : Option ℚ :=
  if recent_price = 0 then none
  else some (round2 ((order_price - recent_price) / recent_price * 100))

/-- `MetricsEngine.calculate_expected_yield`:
`(order_royalty_rate * ref_price / order_price) * 100` rounded to 2 decimals,
`None` when `order_price == 0`.  `ref_price = reference_price or
self.reference_price`, i.e. a `none` or falsy (zero) override falls back to
`REFERENCE_PRICE`. -/
def calculate_expected_yield (order_royalty_rate order_price : ℚ)
    (reference_price : Option ℚ) : Option ℚ :=
  if order_price = 0 then none
  else
    let ref_price : ℚ :=
      match reference_price with
      | none => REFERENCE_PRICE
      | some r => if r = 0 then REFERENCE_PRICE else r
    some (round2 (order_royalty_rate * ref_price / order_price * 100))

/-- `MetricsEngine.calculate_fair_value`: `order_royalty_rate * ref_price`. -/
def calculate_fair_value (order_royalty_rate : ℚ)
    (reference_price : Option ℚ) : ℚ :=
  let ref_price : ℚ :=
    match reference_price with
    | none => REFERENCE_PRICE
    | some r => if r = 0 then REFERENCE_PRICE else r
  order_royalty_rate * ref_price

/-- Python `max` over a nonempty list (`0` is never used: callers guard
against the empty list as the source does). -/
def listMax : List ℚ → ℚ
  | [] => 0
  | x :: xs => xs.foldl max x

/-- Python `min` over a nonempty list. -/
def listMin : List ℚ → ℚ
  | [] => 0
  | x :: xs => xs.foldl min x

/-- Waiting Buy orders, as filtered inside `_calculate_spread_score`. -/
def spread_buy_orders (song_orders : List Order) : List Order :=
  song_orders.filter (fun o => o.order_type = "구매" ∧ o.order_status = "대기")

/-- Waiting Sell orders, as filtered inside `_calculate_spread_score`. -/
def spread_sell_orders (song_orders : List Order) : List Order :=
  song_orders.filter (fun o => o.order_type = "판매" ∧ o.order_status = "대기")

/-- Best (highest) waiting Buy price. -/
def max_buy_price (song_orders : List Order) : ℚ :=
  listMax ((spread_buy_orders song_orders).map (fun o => o.order_price))

/-- Best (lowest) waiting Sell price. -/
def min_sell_price (song_orders : List Order) : ℚ :=
  listMin ((spread_sell_orders song_orders).map (fun o => o.order_price))

/-- The bid-ask spread percentage computed inside `_calculate_spread_score`:
`(min_sell_price - max_buy_price) / max_buy_price * 100`. -/
def spread_pct (song_orders : List Order) : ℚ :=
  (min_sell_price song_orders - max_buy_price song_orders)
    / max_buy_price song_orders * 100

/-- `MetricsEngine._calculate_spread_score`: piecewise-linear map of the
bid-ask spread percentage, clamped to [0,100]; `50.0` when either side of
the book is empty (or the best buy price is `0`). -/
def calculate_spread_score (song_orders : List Order) : ℚ :=
  if spread_buy_orders song_orders = [] ∨ spread_sell_orders song_orders = []
  then 50
  else if max_buy_price song_orders = 0 then 50
  else
    let spread_rate := spread_pct song_orders
    let score : ℚ :=
      if spread_rate ≤ 0 then 100
      else if spread_rate ≤ 5 then 100 - spread_rate * 5
      else if spread_rate ≤ 10 then 75 - (spread_rate - 5) * 5
      else if spread_rate ≤ 20 then 50 - (spread_rate - 10) * 5
      else 0
    max 0 (min 100 score)

/-- Number of Waiting orders, as counted by `_calculate_depth_score`. -/
def waiting_count (song_orders : List Order) : ℕ :=
  (song_orders.filter (fun o => o.order_status = "대기")).length

/-- `MetricsEngine._calculate_depth_score`: piecewise-linear map of the
waiting-order count, clamped to [0,100]. -/
def calculate_depth_score (song_orders : List Order) : ℚ :=
  let n := waiting_count song_orders
  let score : ℚ :=
    if n = 0 then 0
    else if n ≤ 5 then (n : ℚ) * 10
    else if n ≤ 10 then 50 + ((n : ℚ) - 5) * 5
    else if n ≤ 20 then 75 + ((n : ℚ) - 10) * 2.5
    else 100
  max 0 (min 100 score)

/-- Orders whose `order_date` parses and falls within the last 30 minutes
of `now` (missing or malformed dates are skipped). -/
def recent_count (now : ℤ) (song_orders : List Order) : ℕ :=
  (song_orders.filter (fun o =>
    match o.order_date with
    | some d => now - 30 ≤ d
    | none => False)).length

/-- `MetricsEngine._calculate_frequency_score`: piecewise-linear map of the
count of orders in the last 30 minutes, clamped to [0,100]. -/
def calculate_frequency_score (now : ℤ) (song_orders : List Order) : ℚ :=
  let n := recent_count now song_orders
  let score : ℚ :=
    if n = 0 then 0
    else if n ≤ 3 then (n : ℚ) * 16.7
    else if n ≤ 10 then 50 + ((n : ℚ) - 3) * 7.1
    else 100
  max 0 (min 100 score)

/-- The orders of `orders` for the asset `song_name`. -/
def song_orders_of (orders : List Order) (song_name : String) : List Order :=
  orders.filter (fun o => o.song_name = song_name)

/-- `MetricsEngine.calculate_liquidity_score`: `0.0` when no order matches
the song, else the weighted composite
`spread*0.4 + depth*0.3 + frequency*0.3` rounded to 1 decimal. -/
def calculate_liquidity_score (now : ℤ) (orders : List Order)
    (song_name : String) : ℚ :=
  let song_orders := song_orders_of orders song_name
  if song_orders = [] then 0
  else
    let spread_score := calculate_spread_score song_orders
    let depth_score := calculate_depth_score song_orders
    let frequency_score := calculate_frequency_score now song_orders
    round1 (spread_score * 0.4 + depth_score * 0.3 + frequency_score * 0.3)

/-- `MetricsEngine.generate_signal`: collect a valuation tag and a liquidity
tag, collapse Overvalued + low liquidity to "주의" (Caution), else join the
tags with ", ", else "보통" (Normal). -/
def generate_signal (spread_rate : Option ℚ) (liquidity_score : ℚ) : String :=
  let signals : List String :=
    (match spread_rate with
     | none => []
     | some sr =>
       if sr < PREMIUM_THRESHOLD_LOW then ["저평가"]
       else if sr > PREMIUM_THRESHOLD_HIGH then ["고평가"]
       else []) ++
    (if liquidity_score > LIQUIDITY_HIGH_SCORE then ["유동성↑"]
     else if liquidity_score < LIQUIDITY_LOW_SCORE then ["유동성↓"]
     else [])
  if "고평가" ∈ signals ∧ liquidity_score < LIQUIDITY_LOW_SCORE then "주의"
  else if signals = [] then "보통"
  else String.intercalate ", " signals

/-- `MetricsEngine.calculate_order_metrics`: compute the four metrics plus
the fair value and return a copy of the order with those fields added. -/
def calculate_order_metrics (now : ℤ) (order : Order)
    (all_orders : List Order) : EnrichedOrder :=
  let spread_rate := calculate_spread_rate order.order_price order.recent_price
  let expected_yield :=
    calculate_expected_yield order.order_royalty_rate order.order_price none
  let liquidity_score := calculate_liquidity_score now all_orders order.song_name
  let fair_value := calculate_fair_value order.order_royalty_rate none
  let signal := generate_signal spread_rate liquidity_score
  { base := order
    spread_rate := spread_rate
    expected_yield := expected_yield
    liquidity_score := liquidity_score
    fair_value := fair_value
    signal := signal }

/-- `MetricsEngine.calculate_batch_metrics`: enrich every order, using the
same full list as the liquidity context for every element. -/
def calculate_batch_metrics (now : ℤ) (orders : List Order) :
    List EnrichedOrder :=
  orders.map (fun o => calculate_order_metrics now o orders)

/-- A waiting Buy order at price 100, used to witness the sub-score
boundary claims. -/
def c6_buy : Order :=
  { song_name := "A", order_type := "구매", order_status := "대기",
    order_price := 100, recent_price := 0, order_royalty_rate := 0,
    order_date := none }

/-- A waiting Sell order at price `p`, used to witness the sub-score
boundary claims. -/
def c6_sell (p : ℚ) : Order :=
  { song_name := "A", order_type := "판매", order_status := "대기",
    order_price := p, recent_price := 0, order_royalty_rate := 0,
    order_date := none }

/-- Scenario Buy order: Buy @ 9000, Waiting, recent price 10000,
royalty rate 0.08. -/
def c7_buy_order : Order :=
  { song_name := "A", order_type := "구매", order_status := "대기",
    order_price := 9000, recent_price := 10000, order_royalty_rate := 0.08,
    order_date := none }

/-- Scenario Sell order: Sell @ 9500, Waiting, recent price 10000,
royalty rate 0.08. -/
def c7_sell_order : Order :=
  { song_name := "A", order_type := "판매", order_status := "대기",
    order_price := 9500, recent_price := 10000, order_royalty_rate := 0.08,
    order_date := none }

/-- The scenario snapshot: exactly the two orders for song "A". -/
def c7_orders : List Order := [c7_buy_order, c7_sell_order]

/-! ### Helper lemmas about the rounding and clamping primitives -/

lemma floor_le_pyRound (x : ℚ) : ⌊x⌋ ≤ pyRound x := by
  simp only [pyRound]
  split_ifs <;> omega

lemma pyRound_le_floor_add_one (x : ℚ) : pyRound x ≤ ⌊x⌋ + 1 := by
  simp only [pyRound]
  split_ifs <;> omega

lemma le_pyRound_of_le {n : ℤ} {x : ℚ} (h : (n : ℚ) ≤ x) : n ≤ pyRound x :=
  le_trans (Int.le_floor.mpr h) (floor_le_pyRound x)

lemma pyRound_le_of_le {n : ℤ} {x : ℚ} (h : x ≤ (n : ℚ)) : pyRound x ≤ n := by
  have hf : ⌊x⌋ ≤ n := by
    have h2 := Int.floor_mono h
    simpa using h2
  rcases lt_or_eq_of_le hf with hlt | heq
  · have h1 := pyRound_le_floor_add_one x
    omega
  · have hr : x - (⌊x⌋ : ℚ) < 1/2 := by
      have : x ≤ (⌊x⌋ : ℚ) := by rw [heq]; exact_mod_cast h
      linarith
    simp only [pyRound, if_pos hr]
    omega

lemma round1_bounds {x : ℚ} (h0 : 0 ≤ x) (h1 : x ≤ 100) :
    0 ≤ round1 x ∧ round1 x ≤ 100 := by
  constructor
  · have : (0 : ℤ) ≤ pyRound (x * 10) :=
      le_pyRound_of_le (by push_cast; linarith)
    simp only [round1]
    have h10 : (0 : ℚ) ≤ (pyRound (x * 10) : ℚ) := by exact_mod_cast this
    linarith
  · have : pyRound (x * 10) ≤ (1000 : ℤ) :=
      pyRound_le_of_le (by push_cast; linarith)
    simp only [round1]
    rw [div_le_iff₀ (by norm_num)]
    exact_mod_cast le_trans (by exact_mod_cast this) (by norm_num)

lemma clamp_bounds (s : ℚ) : 0 ≤ max 0 (min 100 s) ∧ max 0 (min 100 s) ≤ 100 :=
  ⟨le_max_left _ _, max_le (by norm_num) (min_le_left _ _)⟩

lemma spread_score_bounds (so : List Order) :
    0 ≤ calculate_spread_score so ∧ calculate_spread_score so ≤ 100 := by
  simp only [calculate_spread_score]
  split_ifs <;> exact ⟨by norm_num, by norm_num⟩

lemma depth_score_bounds (so : List Order) :
    0 ≤ calculate_depth_score so ∧ calculate_depth_score so ≤ 100 := by
  simp only [calculate_depth_score]
  exact clamp_bounds _

lemma frequency_score_bounds (now : ℤ) (so : List Order) :
    0 ≤ calculate_frequency_score now so ∧
      calculate_frequency_score now so ≤ 100 := by
  simp only [calculate_frequency_score]
  exact clamp_bounds _

/-! ### Claim theorems -/

/-- C4: for all numeric `order_price` `p` and `recent_price` `r`,
`calculate_spread_rate p r` is `none` iff `r = 0`, and otherwise equals
`(p - r) / r * 100` rounded to 2 decimals; in particular
`calculate_spread_rate 15000 13000 = 15.38`. -/
theorem spec_C4 (p r : ℚ) :
    (calculate_spread_rate p r = none ↔ r = 0) ∧
    (r ≠ 0 → calculate_spread_rate p r = some (round2 ((p - r) / r * 100))) ∧
    calculate_spread_rate 15000 13000 = some 15.38 := by
  refine ⟨?_, ?_, ?_⟩
  · simp only [calculate_spread_rate]
    split_ifs with h <;> simp [h]
  · intro h
    simp [calculate_spread_rate, h]
  · norm_num [calculate_spread_rate, round2, pyRound]

theorem spec_C4_witness :
    calculate_spread_rate 15000 13000 =
      some (round2 ((15000 - 13000) / 13000 * 100)) :=
  (spec_C4 15000 13000).2.1 (by norm_num)

/-- C5: for all numeric `royalty_rate` and `order_price` `p`,
`calculate_expected_yield royalty_rate p` with the default reference price
is `none` iff `p = 0`, and otherwise equals
`royalty_rate * 10000 / p * 100` rounded to 2 decimals; in particular
`calculate_expected_yield 0.08 15000 = 5.33`. -/
theorem spec_C5 (rate p : ℚ) :
    (calculate_expected_yield rate p none = none ↔ p = 0) ∧
    (p ≠ 0 →
      calculate_expected_yield rate p none =
        some (round2 (rate * 10000 / p * 100))) ∧
    calculate_expected_yield 0.08 15000 none = some 5.33 := by
  refine ⟨?_, ?_, ?_⟩
  · simp only [calculate_expected_yield]
    split_ifs with h <;> simp [h]
  · intro h
    simp [calculate_expected_yield, h, REFERENCE_PRICE]
  · norm_num [calculate_expected_yield, REFERENCE_PRICE, round2, pyRound]

theorem spec_C5_witness :
    calculate_expected_yield 0.08 15000 none =
      some (round2 (0.08 * 10000 / 15000 * 100)) :=
  (spec_C5 0.08 15000).2.1 (by norm_num)

/-- C10: an explicit per-call `reference_price` override of `0` is falsy in
`reference_price or self.reference_price`, so it is silently replaced by the
default `REFERENCE_PRICE = 10000`: for every royalty rate and nonzero order
price the call with `some 0` returns exactly the default-call result. -/
theorem spec_C10 (rate p : ℚ) (h : p ≠ 0) :
    calculate_expected_yield rate p (some 0) =
      calculate_expected_yield rate p none ∧
    calculate_expected_yield rate p (some 0) =
      some (round2 (rate * REFERENCE_PRICE / p * 100)) := by
  constructor
  · simp [calculate_expected_yield]
  · simp [calculate_expected_yield, h]

theorem spec_C10_witness :
    calculate_expected_yield 0.08 15000 (some 0) =
      calculate_expected_yield 0.08 15000 none :=
  (spec_C10 0.08 15000 (by norm_num)).1

/-- C2: for every order list and asset key, `calculate_liquidity_score` is in
[0,100]; it is exactly `0` when no order matches `song_name`, and otherwise
equals `0.4*spread + 0.3*depth + 0.3*frequency` rounded to 1 decimal, with
every sub-score itself in [0,100].  (In this embedding the sub-score bodies
are total, so the source's catch-all-to-`50.0` handlers are never reached;
the sub-score range bounds below are what the handlers preserve.) -/
theorem spec_C2 (now : ℤ) (orders : List Order) (song : String) :
    (0 ≤ calculate_liquidity_score now orders song ∧
      calculate_liquidity_score now orders song ≤ 100) ∧
    calculate_liquidity_score now orders song =
      (if song_orders_of orders song = [] then 0
       else round1
         (calculate_spread_score (song_orders_of orders song) * 0.4 +
          calculate_depth_score (song_orders_of orders song) * 0.3 +
          calculate_frequency_score now (song_orders_of orders song) * 0.3)) ∧
    (0 ≤ calculate_spread_score (song_orders_of orders song) ∧
      calculate_spread_score (song_orders_of orders song) ≤ 100) ∧
    (0 ≤ calculate_depth_score (song_orders_of orders song) ∧
      calculate_depth_score (song_orders_of orders song) ≤ 100) ∧
    (0 ≤ calculate_frequency_score now (song_orders_of orders song) ∧
      calculate_frequency_score now (song_orders_of orders song) ≤ 100) := by
  have hs := spread_score_bounds (song_orders_of orders song)
  have hd := depth_score_bounds (song_orders_of orders song)
  have hf := frequency_score_bounds now (song_orders_of orders song)
  refine ⟨?_, ?_, hs, hd, hf⟩
  · simp only [calculate_liquidity_score]
    split_ifs with h
    · norm_num
    · exact round1_bounds (by linarith [hs.1, hd.1, hf.1])
        (by linarith [hs.2, hd.2, hf.2])
  · simp only [calculate_liquidity_score]

/-- C3: `calculate_batch_metrics` is total and order-preserving: the output
has the same length as the input, and projecting every output record to its
non-metric (base) fields gives back exactly the input list. -/
theorem spec_C3 (now : ℤ) (orders : List Order) :
    (calculate_batch_metrics now orders).length = orders.length ∧
    (calculate_batch_metrics now orders).map EnrichedOrder.base = orders := by
  constructor
  · simp [calculate_batch_metrics]
  · simp only [calculate_batch_metrics, List.map_map]
    have h : (EnrichedOrder.base ∘ fun o => calculate_order_metrics now o orders)
        = id := rfl
    rw [h, List.map_id]

/-- C8: given the same frozen snapshot and the same wall-clock `now` (the
only time-dependent input, consumed by the frequency sub-score), the batch
transformation is deterministic and stateless: two runs agree, and the
result is pointwise the pure per-order enrichment applied over the input. -/
theorem spec_C8 (now : ℤ) (orders : List Order) :
    calculate_batch_metrics now orders = calculate_batch_metrics now orders ∧
    calculate_batch_metrics now orders =
      orders.map (fun o => calculate_order_metrics now o orders) :=
  ⟨rfl, rfl⟩

/-- C9: the engine is copy-in/copy-out: enrichment writes only to a copy of
each order, so every output record still embeds its input record unchanged
(`base` field), both per order and across the whole batch. -/
theorem spec_C9 (now : ℤ) (order : Order) (orders : List Order) :
    (calculate_order_metrics now order orders).base = order ∧
    ∀ e ∈ calculate_batch_metrics now orders, e.base ∈ orders := by
  constructor
  · rfl
  · intro e he
    simp only [calculate_batch_metrics, List.mem_map] at he
    obtain ⟨o, ho, rfl⟩ := he
    exact ho

theorem spec_C9_witness :
    (calculate_order_metrics 0 c6_buy [c6_buy]).base = c6_buy ∧
    (calculate_order_metrics 0 c6_buy [c6_buy]).base ∈ [c6_buy] :=
  ⟨(spec_C9 0 c6_buy [c6_buy]).1,
   (spec_C9 0 c6_buy [c6_buy]).2 _ (by simp [calculate_batch_metrics])⟩

/-- C1: `generate_signal` always returns exactly one category from the
closed set (Korean source strings; "저평가" = Undervalued, "고평가" =
Overvalued, "유동성↑" = HighLiquidity, "유동성↓" = LowLiquidity, "주의" =
Caution, "보통" = Normal, and comma-joined tag combinations); the valuation
thresholds are strict (`< -10.0`, `> 10.0`) and the liquidity thresholds
strict (`> 80`, `< 30`); "주의" is produced exactly when Overvalued is
tagged and `liquidity_score < 30`; and the six spec examples evaluate as
stated. -/
theorem spec_C1 :
    (∀ (sr : Option ℚ) (ls : ℚ),
      generate_signal sr ls ∈
        (["보통", "주의", "저평가", "고평가", "유동성↑", "유동성↓",
          "저평가, 유동성↑", "저평가, 유동성↓", "고평가, 유동성↑"] :
          List String)) ∧
    (∀ (v ls : ℚ),
      generate_signal (some v) ls = "주의" ↔
        v > PREMIUM_THRESHOLD_HIGH ∧ ls < LIQUIDITY_LOW_SCORE) ∧
    (∀ ls : ℚ,
      generate_signal none ls ∈
        (["보통", "유동성↑", "유동성↓"] : List String)) ∧
    generate_signal (some (-15)) 60 = "저평가" ∧
    generate_signal (some 15) 60 = "고평가" ∧
    generate_signal (some 5) 85 = "유동성↑" ∧
    generate_signal (some 5) 25 = "유동성↓" ∧
    generate_signal (some 15) 25 = "주의" ∧
    generate_signal (some 5) 50 = "보통" := by
  refine ⟨?_, ?_, ?_, ?_, ?_, ?_, ?_, ?_, ?_⟩
  · intro sr ls
    rcases sr with _ | v
    · by_cases h3 : ls > LIQUIDITY_HIGH_SCORE <;>
        by_cases h4 : ls < LIQUIDITY_LOW_SCORE <;>
        simp [generate_signal, h3, h4] <;> decide
    · by_cases h1 : v < PREMIUM_THRESHOLD_LOW <;>
        by_cases h2 : v > PREMIUM_THRESHOLD_HIGH <;>
        by_cases h3 : ls > LIQUIDITY_HIGH_SCORE <;>
        by_cases h4 : ls < LIQUIDITY_LOW_SCORE <;>
        simp [generate_signal, h1, h2, h3, h4] <;> decide
  · intro v ls
    by_cases h1 : v < PREMIUM_THRESHOLD_LOW <;>
      by_cases h2 : v > PREMIUM_THRESHOLD_HIGH <;>
      by_cases h3 : ls > LIQUIDITY_HIGH_SCORE <;>
      by_cases h4 : ls < LIQUIDITY_LOW_SCORE <;>
      first
        | (simp [generate_signal, h1, h2, h3, h4] <;> decide)
        | (exfalso
           norm_num [PREMIUM_THRESHOLD_LOW, PREMIUM_THRESHOLD_HIGH] at h1 h2
           linarith)
  · intro ls
    by_cases h3 : ls > LIQUIDITY_HIGH_SCORE <;>
      by_cases h4 : ls < LIQUIDITY_LOW_SCORE <;>
      simp [generate_signal, h3, h4] <;> decide
  all_goals
    norm_num [generate_signal, PREMIUM_THRESHOLD_LOW, PREMIUM_THRESHOLD_HIGH,
      LIQUIDITY_HIGH_SCORE, LIQUIDITY_LOW_SCORE] <;> decide

/-- C6: the piecewise-linear sub-score maps are continuous at their stated
boundaries: a bid-ask spread of exactly 5% scores 75, exactly 10% scores 50,
exactly 20% scores 0; a waiting-order count of exactly 5 scores 50, exactly
10 scores 75, exactly 20 scores 100; and with no waiting Buy orders or no
waiting Sell orders the spread score is the neutral 50. -/
theorem spec_C6 :
    (∀ so : List Order, spread_buy_orders so ≠ [] →
      spread_sell_orders so ≠ [] → max_buy_price so ≠ 0 →
      spread_pct so = 5 → calculate_spread_score so = 75) ∧
    (∀ so : List Order, spread_buy_orders so ≠ [] →
      spread_sell_orders so ≠ [] → max_buy_price so ≠ 0 →
      spread_pct so = 10 → calculate_spread_score so = 50) ∧
    (∀ so : List Order, spread_buy_orders so ≠ [] →
      spread_sell_orders so ≠ [] → max_buy_price so ≠ 0 →
      spread_pct so = 20 → calculate_spread_score so = 0) ∧
    (∀ so : List Order, waiting_count so = 5 →
      calculate_depth_score so = 50) ∧
    (∀ so : List Order, waiting_count so = 10 →
      calculate_depth_score so = 75) ∧
    (∀ so : List Order, waiting_count so = 20 →
      calculate_depth_score so = 100) ∧
    (∀ so : List Order, spread_buy_orders so = [] ∨ spread_sell_orders so = [] →
      calculate_spread_score so = 50) := by
  refine ⟨?_, ?_, ?_, ?_, ?_, ?_, ?_⟩
  · intro so hb hs hm hp
    norm_num [calculate_spread_score, hb, hs, hm, hp]
  · intro so hb hs hm hp
    norm_num [calculate_spread_score, hb, hs, hm, hp]
  · intro so hb hs hm hp
    norm_num [calculate_spread_score, hb, hs, hm, hp]
  · intro so h
    norm_num [calculate_depth_score, h]
  · intro so h
    norm_num [calculate_depth_score, h]
  · intro so h
    norm_num [calculate_depth_score, h]
  · intro so h
    simp [calculate_spread_score, h]

theorem spec_C6_witness :
    calculate_spread_score [c6_buy, c6_sell 105] = 75 ∧
    calculate_spread_score [c6_buy, c6_sell 110] = 50 ∧
    calculate_spread_score [c6_buy, c6_sell 120] = 0 ∧
    calculate_depth_score (List.replicate 5 c6_buy) = 50 ∧
    calculate_depth_score (List.replicate 10 c6_buy) = 75 ∧
    calculate_depth_score (List.replicate 20 c6_buy) = 100 ∧
    calculate_spread_score [c6_buy] = 50 := by
  refine ⟨?_, ?_, ?_, ?_, ?_, ?_, ?_⟩
  · exact spec_C6.1 _ (by decide) (by decide)
      (by simp [max_buy_price, spread_buy_orders, listMax, c6_buy, c6_sell])
      (by simp only [spread_pct, max_buy_price, min_sell_price, listMax,
            listMin, spread_buy_orders, spread_sell_orders, c6_buy, c6_sell]
          simp
          norm_num)
  · exact spec_C6.2.1 _ (by decide) (by decide)
      (by simp [max_buy_price, spread_buy_orders, listMax, c6_buy, c6_sell])
      (by simp only [spread_pct, max_buy_price, min_sell_price, listMax,
            listMin, spread_buy_orders, spread_sell_orders, c6_buy, c6_sell]
          simp
          norm_num)
  · exact spec_C6.2.2.1 _ (by decide) (by decide)
      (by simp [max_buy_price, spread_buy_orders, listMax, c6_buy, c6_sell])
      (by simp only [spread_pct, max_buy_price, min_sell_price, listMax,
            listMin, spread_buy_orders, spread_sell_orders, c6_buy, c6_sell]
          simp
          norm_num)
  · exact spec_C6.2.2.2.1 _ (by decide)
  · exact spec_C6.2.2.2.2.1 _ (by decide)
  · exact spec_C6.2.2.2.2.2.1 _ (by decide)
  · exact spec_C6.2.2.2.2.2.2 _ (by decide)

/-! ### The end-to-end scenario of §8 of the spec (claim C7) -/

lemma c7_song_orders : song_orders_of c7_orders "A" = c7_orders := by
  simp [song_orders_of, c7_orders, c7_buy_order, c7_sell_order]

lemma c7_spread_pct : spread_pct c7_orders = 50 / 9 := by
  simp only [spread_pct, max_buy_price, min_sell_price, listMax, listMin,
    spread_buy_orders, spread_sell_orders, c7_orders, c7_buy_order,
    c7_sell_order]
  simp
  norm_num

lemma c7_spread_score : calculate_spread_score c7_orders = 650 / 9 := by
  norm_num [calculate_spread_score, c7_spread_pct,
    show spread_buy_orders c7_orders ≠ [] from by decide,
    show spread_sell_orders c7_orders ≠ [] from by decide,
    show max_buy_price c7_orders ≠ 0 from by
      simp [max_buy_price, spread_buy_orders, listMax, c7_orders,
        c7_buy_order, c7_sell_order]]

lemma c7_depth_score : calculate_depth_score c7_orders = 20 := by
  norm_num [calculate_depth_score,
    show waiting_count c7_orders = 2 from by decide]

lemma c7_frequency_score (now : ℤ) :
    calculate_frequency_score now c7_orders = 0 := by
  norm_num [calculate_frequency_score,
    show ∀ t : ℤ, recent_count t c7_orders = 0 from fun t => by
      simp [recent_count, c7_orders, c7_buy_order, c7_sell_order]]

lemma c7_liquidity (now : ℤ) :
    calculate_liquidity_score now c7_orders "A" = 34.9 := by
  simp only [calculate_liquidity_score, c7_song_orders]
  rw [if_neg (by decide : ¬ c7_orders = [])]
  rw [c7_spread_score, c7_depth_score, c7_frequency_score now]
  norm_num [round1, pyRound]

lemma c7_spread_rate_val :
    calculate_spread_rate (9000 : ℚ) 10000 = some (-10) := by
  norm_num [calculate_spread_rate, round2, pyRound]

lemma c7_expected_yield_val :
    calculate_expected_yield (0.08 : ℚ) 9000 none = some 8.89 := by
  norm_num [calculate_expected_yield, REFERENCE_PRICE, round2, pyRound]

lemma c7_signal (now : ℤ) :
    (calculate_order_metrics now c7_buy_order c7_orders).signal = "보통" := by
  have h1 : c7_buy_order.order_price = 9000 := rfl
  have h2 : c7_buy_order.recent_price = 10000 := rfl
  have h3 : c7_buy_order.song_name = "A" := rfl
  simp only [calculate_order_metrics, h1, h2, h3, c7_spread_rate_val,
    c7_liquidity]
  norm_num [generate_signal, PREMIUM_THRESHOLD_LOW, PREMIUM_THRESHOLD_HIGH,
    LIQUIDITY_HIGH_SCORE, LIQUIDITY_LOW_SCORE]

/-- C7 (counterexample to the claim as stated): in the two-order scenario
the enriched Buy order has `spread_rate = -10.0` exactly, and since the
Undervalued threshold is strict (`spread_rate < -10.0`), the resulting
signal is "보통" (Normal) and does not include "저평가" (Undervalued) —
contradicting the claim's final conjunct. -/
theorem spec_C7_counterexample :
    (calculate_order_metrics 0 c7_buy_order c7_orders).spread_rate =
      some (-10) ∧
    (calculate_order_metrics 0 c7_buy_order c7_orders).signal = "보통" ∧
    (calculate_order_metrics 0 c7_buy_order c7_orders).signal ∉
      (["저평가", "저평가, 유동성↑", "저평가, 유동성↓"] : List String) := by
  refine ⟨?_, c7_signal 0, ?_⟩
  · have h1 : c7_buy_order.order_price = 9000 := rfl
    have h2 : c7_buy_order.recent_price = 10000 := rfl
    simp only [calculate_order_metrics, h1, h2, c7_spread_rate_val]
  · rw [c7_signal 0]
    decide

/-- C7 (amended): in the two-order scenario the enriched Buy order has
`spread_rate = -10.0` and `expected_yield = 8.89`, the liquidity spread
percentage is `(9500-9000)/9000*100 = 50/9` (≈ 5.56%) giving spread score
`650/9` (≈ 72.2) and depth score 20 for two waiting orders — but the
resulting signal is "보통" (Normal): it does NOT include "저평가"
(Undervalued), because spread_rate −10.0 is not strictly below the −10.0
threshold.  (`now` is arbitrary: both order dates are absent, so the
frequency sub-score is 0.) -/
theorem spec_C7 (now : ℤ) :
    (calculate_order_metrics now c7_buy_order c7_orders).spread_rate =
      some (-10) ∧
    (calculate_order_metrics now c7_buy_order c7_orders).expected_yield =
      some 8.89 ∧
    spread_pct c7_orders = (9500 - 9000) / 9000 * 100 ∧
    calculate_spread_score c7_orders = 650 / 9 ∧
    calculate_depth_score c7_orders = 20 ∧
    (calculate_order_metrics now c7_buy_order c7_orders).liquidity_score =
      34.9 ∧
    (calculate_order_metrics now c7_buy_order c7_orders).signal = "보통" := by
  have h1 : c7_buy_order.order_price = 9000 := rfl
  have h2 : c7_buy_order.recent_price = 10000 := rfl
  have h3 : c7_buy_order.song_name = "A" := rfl
  have h4 : c7_buy_order.order_royalty_rate = 0.08 := rfl
  refine ⟨?_, ?_, ?_, c7_spread_score, c7_depth_score, ?_, c7_signal now⟩
  · simp only [calculate_order_metrics, h1, h2, c7_spread_rate_val]
  · simp only [calculate_order_metrics, h1, h4, c7_expected_yield_val]
  · rw [c7_spread_pct]
    norm_num
  · simp only [calculate_order_metrics, h3, c7_liquidity]

end MCdata
